import Mathlib

/-!
Shallow embedding of the core of sailboat.py (a terminal web browser):
the markup extractor (Browser.parse / Browser._parse / Browser._parse_as_plaintext),
the viewport scroll state machine (Display._scroll / Display._reset_page_coordinates),
the visible-window computation of Display.draw, and the query/file classification
(Browser._is_path / Browser._file_search).

HTML tokenization is external (BeautifulSoup with the html.parser builder), so the
extractor is embedded over an already-parsed node tree, as the spec prescribes.
The html.parser builder performs no tree fix-up: it never synthesizes html, head or
body tags that are absent from the markup, and soup.body / soup.html / soup.head are
pre-order searches over the parsed node list returning the first tag of that name,
or none.  Machine integers are modelled as Int (Python ints are unbounded).
Python exceptions are modelled with Except.
-/

/-- A node of the parsed document tree, as BeautifulSoup exposes it to
Browser._parse: a Comment, a NavigableString (plain text), or a Tag with a
name, attributes and ordered children. -/
inductive Node where
  | comment : String → Node
  | text : String → Node
  | elem : String → List (String × String) → List Node → Node

/-- The display-element vocabulary of Browser: HTMLMarkupText, HTMLMarkupImage,
HTMLMarkupLink (href, text, nestedObjects), HTMLMarkupError, HTMLMarkupTitle.
Attribute values and title strings may be absent (Python None), hence Option.
The emphasized/underlined fields of HTMLMarkupText are always left at their
default False by the extractor and never read, so they are omitted. -/
inductive Elt where
  | text : String → Elt
  | image : Option String → Option String → Elt
  | link : Option String → Option String → Option (List Elt) → Elt
  | error : String → Elt
  | title : Option String → Elt

/-- The name attribute each HTMLMarkup class carries ("text", "image", "link",
"error", "title"), used by Display.draw for dispatch. -/
def Elt.eltName : Elt → String
  | .text _ => "text"
  | .image _ _ => "image"
  | .link _ _ _ => "link"
  | .error _ => "error"
  | .title _ => "title"

/-- The ASCII whitespace characters of Python str.isspace / str.strip
(space, tab, newline, carriage return, vertical tab, form feed). -/
def pyWhitespace (c : Char) : Bool :=
  c == ' ' || c == '\t' || c == '\n' || c == '\r' || c == '\x0b' || c == '\x0c'

/-- Python str.isspace: true iff the string is non-empty and every character is
whitespace. -/
def pyIsspace (s : String) : Bool :=
  !s.data.isEmpty && s.data.all pyWhitespace

/-- Python str.strip(): remove leading and trailing whitespace. -/
def pyStrip (s : String) : String :=
  String.mk (((s.data.dropWhile pyWhitespace).reverse.dropWhile pyWhitespace).reverse)

/-- str.split for a single-character separator, on the character list:
"a\nb".split gives [a, b], and splitting the empty string gives [""] . -/
def splitCharsOn (sep : Char) : List Char → List (List Char)
  | [] => [[]]
  | c :: rest =>
    if c == sep then [] :: splitCharsOn sep rest
    else
      match splitCharsOn sep rest with
      | [] => [[c]]
      | l :: ls => (c :: l) :: ls

/-- Python text.split(newline). -/
def pySplitLines (s : String) : List String :=
  (splitCharsOn '\n' s.data).map String.mk

/-- Python str.lower (over the characters). -/
def pyLower (s : String) : String := String.mk (s.data.map Char.toLower)

/-- Python str.endswith. -/
def pyEndswith (s suffix : String) : Bool := suffix.data.isSuffixOf s.data

/-- Python substring containment (the in operator). -/
def pyContains (s pat : String) : Bool := pyContainsChars pat.data s.data
where
  pyContainsChars (pat : List Char) : List Char → Bool
    | [] => pat.isEmpty
    | c :: rest => pat.isPrefixOf (c :: rest) || pyContainsChars pat rest

/-- element.get(key) on a bs4 Tag: the attribute value, or None when absent. -/
def lookupAttr (key : String) (attrs : List (String × String)) : Option String :=
  match attrs.find? (fun p => p.1 == key) with
  | some p => some p.2
  | none => none

/-- The tag names Browser._parse skips entirely (line 119 of sailboat.py). -/
def skipTags : List String := ["style", "script", "head", "title", "meta", "[document]"]

mutual

/-- Browser._parse (sailboat.py lines 115-159): recursively flatten one node
into a list of display elements.  Comments and skip-tags contribute nothing,
non-whitespace text becomes a Text, img an Image, br the Text newline sentinel.
An anchor inspects its first child: no children contributes nothing; a first
child that is exactly a NavigableString becomes the link text (dropped when
whitespace-only); any other first child makes a compound Link collecting the
recursive extraction of all children.  Every other tag is transparent. -/
def parseNode : Node → List Elt
  | .comment _ => []
  | .text s => if pyIsspace s then [] else [.text s]
  | .elem name attrs children =>
    if skipTags.contains name then []
    else if name == "img" then [.image (lookupAttr "src" attrs) (lookupAttr "alt" attrs)]
    else if name == "br" then [.text "\n"]
    else if name == "a" then
      match children with
      | [] => []
      | Node.text t :: _ =>
        if pyIsspace t then [] else [.link (lookupAttr "href" attrs) (some t) none]
      | c :: rest => [.link (lookupAttr "href" attrs) none (some (parseNodes (c :: rest)))]
    else parseNodes children
termination_by n => sizeOf n

/-- Concatenation of the extraction of a list of sibling nodes, in document
order (the `for child in element.children: content += self._parse(child)` loops). -/
def parseNodes : List Node → List Elt
  | [] => []
  | n :: rest => parseNode n ++ parseNodes rest
termination_by l => sizeOf l

end

/-- bs4 find(name) over a node list: first tag with the given name in
pre-order document order (a tag is found before its own descendants). -/
def findIn (name : String) : List Node → Option Node
  | [] => none
  | Node.elem nm attrs cs :: rest =>
    if nm == name then some (Node.elem nm attrs cs)
    else
      match findIn name cs with
      | some r => some r
      | none => findIn name rest
  | Node.comment _ :: rest => findIn name rest
  | Node.text _ :: rest => findIn name rest
termination_by l => sizeOf l

/-- bs4 Tag.string: the single NavigableString child if there is exactly one
child (recursing through a single-tag child), else None. -/
def nodeString : Node → Option String
  | .text s => some s
  | .comment s => some s
  | .elem _ _ [c] => nodeString c
  | .elem _ _ _ => none

/-- bs4 get_text over a node list: concatenation of every text node's string,
in document order (comments contribute nothing). -/
def getTextList : List Node → String
  | [] => ""
  | Node.text s :: rest => s ++ getTextList rest
  | Node.comment _ :: rest => getTextList rest
  | Node.elem _ _ cs :: rest => getTextList cs ++ getTextList rest
termination_by l => sizeOf l

/-- The children of a tag node (a NavigableString or Comment has none). -/
def Node.childrenOf : Node → List Node
  | .elem _ _ cs => cs
  | _ => []

/-- The parsed document handed to Browser.parse: the top-level node list
produced by BeautifulSoup(raw_markup, html.parser). -/
structure Soup where
  roots : List Node

/-- soup.body: first body tag of the document, or none. -/
def Soup.bodyTag (s : Soup) : Option Node := findIn "body" s.roots

/-- soup.html: first html tag of the document, or none. -/
def Soup.htmlTag (s : Soup) : Option Node := findIn "html" s.roots

/-- soup.head: first head tag of the document, or none. -/
def Soup.headTag (s : Soup) : Option Node := findIn "head" s.roots

/-- soup.get_text() on the whole document. -/
def Soup.getText (s : Soup) : String := getTextList s.roots

/-- Browser._parse_as_plaintext (lines 108-113): split on newlines, drop empty
lines (filter(None, ...)), and wrap each remaining stripped line as a Text. -/
def parse_as_plaintext (text : String) : List Elt :=
  ((pySplitLines text).filter (fun l => !l.data.isEmpty)).map (fun l => Elt.text (pyStrip l))

/-- Lines 97-106 of Browser.parse, run once a body node (possibly the promoted
html root) is at hand: extract the body, then evaluate soup.head.title.  When
the document has no head tag, soup.head is None and the attribute access
soup.head.title raises AttributeError -- modelled as Except.error.  Otherwise a
Title is prepended when the head holds a title tag, and an empty result is
replaced by the single Error element. -/
def parseBody (b : Node) (soup : Soup) : Except String (List Elt) :=
  let parsedContent := parseNode b
  match soup.headTag with
  | none => Except.error "AttributeError: NoneType object has no attribute title"
  | some h =>
    let withTitle :=
      match findIn "title" h.childrenOf with
      | some t => Elt.title (nodeString t) :: parsedContent
      | none => parsedContent
    if withTitle.length == 0 then Except.ok [Elt.error "Empty Page"]
    else Except.ok withTitle

/-- Browser.parse (lines 78-106).  A failed fetch immediately yields the single
Error element, the markup untouched.  Otherwise: if the document has no body
node, a document with text and an html root has that root promoted to body,
one with text but no html root is rendered as plaintext, and an empty one
yields Error "Empty Page"; a body (or promoted root) is extracted by
parseBody. -/
def parse (success : Bool) (errmsg : String) (soup : Soup) : Except String (List Elt) :=
  if !success then Except.ok [Elt.error errmsg]
  else
    match soup.bodyTag with
    | none =>
      if !soup.getText.data.isEmpty then
        match soup.htmlTag with
        | some h => parseBody h soup
        | none => Except.ok (parse_as_plaintext soup.getText)
      else Except.ok [Elt.error "Empty Page"]
    | some b => parseBody b soup

/-- The scroll state owned by Display: _top, _bottom (viewport row count),
_max_lines (= _bottom - 2 after a reset) and _current_line.  Python ints are
unbounded, hence Int. -/
structure ScrollState where
  top : Int
  bottom : Int
  max_lines : Int
  current_line : Int
deriving DecidableEq, Repr

/-- Display._scroll (sailboat.py lines 409-423), minus the trailing redraw:
normal scroll moves current_line to next when next < bottom and
top + next < bottom; overflow scroll-down increments top when next = bottom
and top + max_lines < bottom; otherwise the state is unchanged.  Note the
bounds mention only the viewport fields, never the length of the content. -/
def scrollStep (s : ScrollState) (direction : Int) : ScrollState :=
  if s.current_line + direction < s.bottom ∧
     s.top + (s.current_line + direction) < s.bottom then
    { s with current_line := s.current_line + direction }
  else if s.current_line + direction = s.bottom ∧
          s.top + s.max_lines < s.bottom then
    { s with top := s.top + 1 }
  else s

/-- Display._reset_page_coordinates (lines 425-429): top := 0, bottom := the
content window's height, max_lines := bottom - 2, current_line := top. -/
def reset_page_coordinates (winHeight : Int) : ScrollState :=
  { top := 0, bottom := winHeight, max_lines := winHeight - 2, current_line := 0 }

/-- Resolution of one Python slice bound for a list of length n: negative
bounds count from the end, and both are clamped into [0, n]. -/
def pyIndex (n : Nat) (i : Int) : Nat :=
  if i < 0 then ((n : Int) + i).toNat else min i.toNat n

/-- Python list slicing xs[a:b] (as used by Display.draw), including the
negative-index and clamping semantics. -/
def pySlice {α : Type} (xs : List α) (a b : Int) : List α :=
  (xs.take (pyIndex xs.length b)).drop (pyIndex xs.length a)

/-- The visible-window computation of Display.draw (lines 240-263): an empty
sequence raises IndexError at content[0] (none); a leading Error element makes
draw return after printing the message, so no paged window exists (none);
otherwise — whether or not the first element is a Title, since the pop of the
leading Title is commented out — the page is content[1:][current_line :
current_line + max_lines]. -/
def drawWindow (content : List Elt) (currentLine maxLines : Int) : Option (List Elt) :=
  match content with
  | [] => none
  | e :: rest =>
    if e.eltName == "error" then none
    else some (pySlice rest currentLine (currentLine + maxLines))

/-- Modelled from the spec's words for the refinement check of the draw
window (spec 4.2): the body excludes the leading Title or Error only when such
a leading element is present, and the window is the body elements from index
current_line through current_line + max_visible_lines (exclusive). -/
def specWindow (content : List Elt) (currentLine maxLines : Int) : List Elt :=
  let body :=
    match content with
    | e :: rest =>
      if e.eltName == "title" || e.eltName == "error" then rest else content
    | [] => []
  pySlice body currentLine (currentLine + maxLines)

/-- The result record of Browser.search / Browser._file_search: the
WebsiteContent triple (html, success, errmsg). -/
structure WebContentR where
  html : String
  success : Bool
  errmsg : String
deriving DecidableEq, Repr

/-- Browser._file_search (lines 170-179).  The filesystem is external:
pathExists and isFile stand for os.path.exists(path) and os.path.isfile(path),
and fileContents for what open(path).read() would return.  The path is
rejected unless it exists, is a regular file, and its lowercased name ends in
".html" (exactly — ".htm" does not pass endswith(".html")). -/
def file_search (path : String) (pathExists isFile : Bool) (fileContents : String) : WebContentR :=
  if !pathExists || !isFile || !(pyEndswith (pyLower path) ".html") then
    { html := "", success := false,
      errmsg := "'" ++ path ++ "' is not a valid path to an HTML file." }
  else { html := fileContents, success := true, errmsg := "" }

/-- Browser._is_path (lines 181-182): string[0] raises IndexError on the empty
query (none); otherwise the query is a path iff it starts with a tilde, a
slash or a dot, or os.path.exists(query) holds (queryExists). -/
def is_path (q : String) (queryExists : Bool) : Option Bool :=
  match q.data with
  | [] => none
  | c :: _ => some (c == '~' || c == '/' || c == '.' || queryExists)

/-- Which route Browser.search takes for a query. -/
inductive SearchRoute where
  | file : String → SearchRoute
  | web : String → SearchRoute
deriving DecidableEq, Repr

/-- Browser.search (lines 70-76), up to the external fetch itself: a path-like
query goes to _file_search with the query as the path; otherwise the query is
sent to _web_search, prefixed with http when no scheme separator occurs in it. -/
def searchRoute (q : String) (queryExists : Bool) : Option SearchRoute :=
  match is_path q queryExists with
  | none => none
  | some true => some (SearchRoute.file q)
  | some false =>
    some (SearchRoute.web (if pyContains q "://" then q else "http://" ++ q))

/-- soup.head.title in the non-crashing case: the first title tag among the
descendants of the head tag, when a head exists. -/
def Soup.headTitle (s : Soup) : Option Node :=
  match s.headTag with
  | some h => findIn "title" h.childrenOf
  | none => none

/-- The parse of the markup body-without-head document (for instance
the markup body hi /body, or the spec's own end-to-end example 1): html.parser
yields a body tag but no head tag. -/
def docBodyNoHead : Soup := ⟨[Node.elem "body" [] [Node.text "hi"]]⟩

/-- The parse of the markup head title t /title /head (no html, no body): a
head tag holding a title tag, nothing else. -/
def docHeadOnly : Soup :=
  ⟨[Node.elem "head" [] [Node.elem "title" [] [Node.text "t"]]]⟩

/-- The parse of a full document: html root, head with title T, body with
text hi. -/
def docFull : Soup :=
  ⟨[Node.elem "html" []
      [Node.elem "head" [] [Node.elem "title" [] [Node.text "T"]],
       Node.elem "body" [] [Node.text "hi"]]]⟩

/-- The body node of docFull. -/
def docFullBody : Node := Node.elem "body" [] [Node.text "hi"]

/-- The head node of docFull. -/
def docFullHead : Node := Node.elem "head" [] [Node.elem "title" [] [Node.text "T"]]

/-- Helper: the normal-scroll branch of Display._scroll, characterized. -/
theorem scrollStep_normal (s : ScrollState) (d : Int)
    (h1 : s.current_line + d < s.bottom)
    (h2 : s.top + (s.current_line + d) < s.bottom) :
    scrollStep s d = { s with current_line := s.current_line + d } := by
  unfold scrollStep
  rw [if_pos ⟨h1, h2⟩]

/-- Helper: Browser._parse never produces a Title element (title tags are in
the skip list); Titles enter only by the explicit insert in Browser.parse. -/
theorem title_notin_parseNodes : ∀ (l : List Node) (x : Option String),
    Elt.title x ∉ parseNodes l
  | [], _ => by simp [parseNodes]
  | n :: rest, x => by
    have hrest : Elt.title x ∉ parseNodes rest := title_notin_parseNodes rest x
    have hnode : Elt.title x ∉ parseNode n := by
      cases n with
      | comment s =>
        rw [parseNode.eq_def]
        simp
      | text s =>
        rw [parseNode.eq_def]
        dsimp only
        split <;> simp
      | elem nm attrs cs =>
        have hcs : Elt.title x ∉ parseNodes cs := title_notin_parseNodes cs x
        rw [parseNode.eq_def]
        dsimp only
        split_ifs
        · simp
        · simp
        · simp
        · split
          · simp
          · split <;> simp
          · simp
        · exact hcs
    simp only [parseNodes, List.mem_append]
    rintro (h | h)
    · exact hnode h
    · exact hrest h
termination_by l => sizeOf l

/-- Helper: single-node version of title_notin_parseNodes. -/
theorem title_notin_parseNode (n : Node) (x : Option String) :
    Elt.title x ∉ parseNode n := by
  have h := title_notin_parseNodes [n] x
  simp only [parseNodes, List.append_nil] at h
  exact h

/-- C3: the claim fails on the code.  From the reset state (top = 0,
current_line = 0, viewport rows 5), scroll(up) takes the normal-scroll branch
(next = -1 satisfies next < bottom and top + next < bottom) and sets
current_line to -1: the state changes and the invariant 0 <= current_line is
violated. -/
theorem c3_scroll_up_counterexample :
    (scrollStep (reset_page_coordinates 5) (-1)).current_line = -1 ∧
    (reset_page_coordinates 5).current_line = 0 ∧
    (reset_page_coordinates 5).top = 0 := by
  refine ⟨?_, rfl, rfl⟩
  rfl

/-- C3 amended: every scroll command preserves the upper bound current_line <
bottom (the viewport row count), but current_line is not bounded below by 0:
scroll(up) from the freshly reset state current_line = 0, top = 0 moves
current_line to -1 while leaving top at 0. -/
theorem c3_amended_scroll_bounds :
    (∀ (s : ScrollState) (d : Int), s.current_line < s.bottom →
      (scrollStep s d).current_line < s.bottom) ∧
    (∀ hgt : Int, 0 < hgt →
      scrollStep (reset_page_coordinates hgt) (-1) =
        { top := 0, bottom := hgt, max_lines := hgt - 2, current_line := -1 }) := by
  constructor
  · intro s d h
    unfold scrollStep
    split_ifs with h1 h2
    · exact h1.1
    · exact h
    · exact h
  · intro hgt hpos
    simp only [scrollStep, reset_page_coordinates]
    split_ifs with h1 h2
    · norm_num
    · omega
    · omega

/-- Witness for c3_amended_scroll_bounds at concrete states. -/
theorem c3_amended_scroll_bounds_witness :
    (scrollStep { top := 0, bottom := 5, max_lines := 3, current_line := 2 } 1).current_line < 5 ∧
    scrollStep (reset_page_coordinates 5) (-1) =
      { top := 0, bottom := 5, max_lines := 3, current_line := -1 } :=
  ⟨c3_amended_scroll_bounds.1 { top := 0, bottom := 5, max_lines := 3, current_line := 2 } 1
      (by decide),
   c3_amended_scroll_bounds.2 5 (by decide)⟩

/-- C6: the claim fails on the code.  Display._scroll never consults the
number of body rows (scrollStep has no content argument): from the reset
state with viewport rows 5 (max_lines = 3), a body of 2 rows satisfies
2 <= max_lines, yet scroll(down) sets current_line to 1 instead of leaving
the position unchanged. -/
theorem c6_scroll_down_counterexample :
    (reset_page_coordinates 5).max_lines = 3 ∧
    (scrollStep (reset_page_coordinates 5) 1).current_line = 1 ∧
    (scrollStep (reset_page_coordinates 5) 1).top = 0 := by
  refine ⟨rfl, ?_, ?_⟩ <;> rfl

/-- C6 amended: scroll(down) from the freshly reset position sets
current_line to 1 whenever the viewport has more than one row; the scroll
bounds depend only on the viewport geometry, never on how many body rows the
element sequence occupies. -/
theorem c6_amended_scroll_down (hgt : Int) (h : 1 < hgt) :
    scrollStep (reset_page_coordinates hgt) 1 =
      { top := 0, bottom := hgt, max_lines := hgt - 2, current_line := 1 } := by
  simp only [scrollStep, reset_page_coordinates]
  split_ifs with h1 h2
  · norm_num
  · omega
  · omega

/-- Witness for c6_amended_scroll_down at viewport height 5. -/
theorem c6_amended_scroll_down_witness :
    scrollStep (reset_page_coordinates 5) 1 =
      { top := 0, bottom := 5, max_lines := 3, current_line := 1 } :=
  c6_amended_scroll_down 5 (by decide)

/-- C7 (confirmed): from a stable interior position (one where scroll(down)
takes the normal-scroll branch: current_line + 1 < bottom and
top + current_line + 1 < bottom), scroll(down) followed by scroll(up)
restores the exact prior (top, current_line) pair - indeed the whole state. -/
theorem c7_scroll_roundtrip (s : ScrollState)
    (h1 : s.current_line + 1 < s.bottom)
    (h2 : s.top + (s.current_line + 1) < s.bottom) :
    scrollStep (scrollStep s 1) (-1) = s := by
  rw [scrollStep_normal s 1 h1 h2]
  rw [scrollStep_normal _ (-1) (by show s.current_line + 1 + -1 < s.bottom; omega)
      (by show s.top + (s.current_line + 1 + -1) < s.bottom; omega)]
  show ({ s with current_line := s.current_line + 1 + -1 } : ScrollState) = s
  have hc : s.current_line + 1 + -1 = s.current_line := by omega
  rw [hc]

/-- Witness for c7_scroll_roundtrip from the reset state with viewport rows 5. -/
theorem c7_scroll_roundtrip_witness :
    scrollStep (scrollStep (reset_page_coordinates 5) 1) (-1) = reset_page_coordinates 5 :=
  c7_scroll_roundtrip (reset_page_coordinates 5) (by decide) (by decide)

/-- C10 (confirmed): no scroll command ever decreases top - a step leaves top
unchanged or increments it by one (so once top leaves 0 it can only grow) -
and top returns to 0 exactly by _reset_page_coordinates, which runs when a new
search replaces the element sequence. -/
theorem c10_top_monotone :
    (∀ (s : ScrollState) (d : Int),
      s.top ≤ (scrollStep s d).top ∧
      ((scrollStep s d).top = s.top ∨ (scrollStep s d).top = s.top + 1)) ∧
    ∀ hgt : Int, (reset_page_coordinates hgt).top = 0 := by
  constructor
  · intro s d
    unfold scrollStep
    split_ifs
    · exact ⟨le_refl _, Or.inl rfl⟩
    · exact ⟨by dsimp only; omega, Or.inr rfl⟩
    · exact ⟨le_refl _, Or.inl rfl⟩
  · intro hgt
    rfl

/-- C1: the claim fails and the code is wrong (code bug).  For a successful
fetch of any document having a body but no head - for instance the markup
body hi /body, or the spec's own end-to-end example 1 - Browser.parse reaches
line 99 and evaluates soup.head.title with soup.head = None (html.parser never
synthesizes a head), raising AttributeError instead of returning an element
sequence.  The spec says parse never raises and always returns a non-empty
sequence. -/
theorem c1_parse_crash_on_missing_head :
    parse true "" docBodyNoHead =
      Except.error "AttributeError: NoneType object has no attribute title" := by
  simp [parse, parseBody, docBodyNoHead, Soup.bodyTag, Soup.headTag, findIn]

/-- C4 (confirmed): on a failed fetch, Browser.parse returns exactly the
one-element sequence holding an Error carrying the fetch error message, for
every document tree the raw markup could parse to - the markup is never
inspected. -/
theorem c4_failed_fetch_exact_error (errmsg : String) (soup : Soup) :
    parse false errmsg soup = Except.ok [Elt.error errmsg] := rfl

/-- C5 counterexample: the anchor markup a href x (space) /a has the sole child
text node " ", which is non-empty (one character), yet Browser._parse yields
no Link at all: the code drops the link whenever the first-child text
satisfies str.isspace, so non-empty whitespace-only text refutes the claim as
stated. -/
theorem c5_whitespace_anchor_counterexample :
    (" " : String) ≠ "" ∧
    parseNode (Node.elem "a" [("href", "/x")] [Node.text " "]) = [] := by
  have hsp : pyIsspace " " = true := by decide
  constructor
  · decide
  · rw [parseNode.eq_def]
    simp [skipTags, hsp]

/-- C5 amended: an anchor with no children contributes nothing; an anchor
whose sole child is a text node that does not satisfy str.isspace (rather
than merely non-empty) contributes exactly one Link with that text and no
children; an anchor whose first child is a nested element contributes exactly
one Link with text = none and children equal to the concatenated recursive
extraction of every child in document order. -/
theorem c5_amended_anchor_rules (attrs : List (String × String)) :
    parseNode (Node.elem "a" attrs []) = [] ∧
    (∀ t : String, pyIsspace t = false →
      parseNode (Node.elem "a" attrs [Node.text t]) =
        [Elt.link (lookupAttr "href" attrs) (some t) none]) ∧
    (∀ (nm : String) (cattrs : List (String × String)) (cs rest : List Node),
      parseNode (Node.elem "a" attrs (Node.elem nm cattrs cs :: rest)) =
        [Elt.link (lookupAttr "href" attrs) none
          (some (parseNode (Node.elem nm cattrs cs) ++ parseNodes rest))]) := by
  refine ⟨?_, ?_, ?_⟩
  · rw [parseNode.eq_def]
    simp [skipTags]
  · intro t ht
    rw [parseNode.eq_def]
    simp [skipTags, ht]
  · intro nm cattrs cs rest
    rw [parseNode.eq_def]
    simp only [skipTags]
    simp [parseNodes]

/-- Witness for c5_amended_anchor_rules: the anchor a href /x click /a yields
exactly one Link with the text click. -/
theorem c5_amended_anchor_rules_witness :
    parseNode (Node.elem "a" [("href", "/x")] [Node.text "click"]) =
      [Elt.link (some "/x") (some "click") none] := by
  have h := (c5_amended_anchor_rules [("href", "/x")]).2.1 "click" (by decide)
  simpa [lookupAttr] using h

/-- C8 counterexample: the document head title t /title /head (a head holding
a title, but no html root and no body) takes the plaintext fallback of
Browser.parse, which returns [Text t]: the head contains a title tag, yet the
first element of the result is a Text, not a Title. -/
theorem c8_headless_title_counterexample :
    Soup.headTitle docHeadOnly = some (Node.elem "title" [] [Node.text "t"]) ∧
    parse true "" docHeadOnly = Except.ok [Elt.text "t"] := by
  have h1 : pySplitLines "t" = ["t"] := by decide
  have h2 : pyStrip "t" = "t" := by decide
  have hie : ("t" : String).data.isEmpty = false := by decide
  have hb : Soup.bodyTag docHeadOnly = none := by simp [Soup.bodyTag, docHeadOnly, findIn]
  have hh : Soup.htmlTag docHeadOnly = none := by simp [Soup.htmlTag, docHeadOnly, findIn]
  have hg : Soup.getText docHeadOnly = "t" := by simp [Soup.getText, docHeadOnly, getTextList]
  have hp : parse_as_plaintext "t" = [Elt.text "t"] := by simp [parse_as_plaintext, h1, h2]
  constructor
  · simp [Soup.headTitle, Soup.headTag, docHeadOnly, findIn, Node.childrenOf]
  · simp only [parse, hb, hh, hg, hp, hie, Bool.not_true, Bool.not_false]
    simp

/-- C8 amended: for a document with a body node and a head node, if the head
contains a title tag the result's first element is a Title carrying that
title's string (followed by the body extraction), and if the head contains no
title tag the returned sequence contains no Title element at all.  (Without
the body-and-head restriction the claim fails: headless fallback paths can
ignore an existing title, as the counterexample shows, and a body without a
head crashes.) -/
theorem c8_amended_title_handling :
    (∀ (soup : Soup) (e : String) (b h t : Node),
      soup.bodyTag = some b → soup.headTag = some h →
      findIn "title" h.childrenOf = some t →
      parse true e soup = Except.ok (Elt.title (nodeString t) :: parseNode b)) ∧
    (∀ (soup : Soup) (e : String) (b h : Node),
      soup.bodyTag = some b → soup.headTag = some h →
      findIn "title" h.childrenOf = none →
      ∀ (l : List Elt) (x : Option String),
        parse true e soup = Except.ok l → Elt.title x ∉ l) := by
  constructor
  · intro soup e b h t hb hh ht
    simp [parse, parseBody, hb, hh, ht]
  · intro soup e b h hb hh ht l x hl
    simp only [parse, parseBody, hb, hh, ht, Bool.not_true] at hl
    split at hl
    · exact absurd (by assumption) Bool.false_ne_true
    · split at hl
      · rw [Except.ok.injEq] at hl
        subst hl
        simp
      · rw [Except.ok.injEq] at hl
        subst hl
        exact title_notin_parseNode b x

/-- Witness for c8_amended_title_handling on the full document html head
title T /title /head body hi /body /html. -/
theorem c8_amended_title_handling_witness :
    parse true "" docFull = Except.ok [Elt.title (some "T"), Elt.text "hi"] := by
  have hsp : pyIsspace "hi" = false := by decide
  have h := c8_amended_title_handling.1 docFull "" docFullBody docFullHead
      (Node.elem "title" [] [Node.text "T"])
      (by simp [Soup.bodyTag, docFull, findIn, docFullBody])
      (by simp [Soup.headTag, docFull, findIn, docFullHead])
      (by simp [findIn, docFullHead, Node.childrenOf])
  simpa [docFullBody, parseNode, parseNodes, nodeString, hsp] using h

/-- C2: the claim fails on the code.  For the sequence [Text a, Text b] (no
leading Title or Error) at current_line = 0 with max_lines = 3, the claim says
the visible window includes the first element, but Display.draw slices
content[1:] unconditionally (the pop of the leading Title is commented out),
so the window is [Text b]: the first element is dropped even though it is not
a Title or Error. -/
theorem c2_window_counterexample :
    drawWindow [Elt.text "a", Elt.text "b"] 0 3 = some [Elt.text "b"] ∧
    specWindow [Elt.text "a", Elt.text "b"] 0 3 = [Elt.text "a", Elt.text "b"] ∧
    drawWindow [Elt.text "a", Elt.text "b"] 0 3 ≠
      some (specWindow [Elt.text "a", Elt.text "b"] 0 3) := by
  refine ⟨rfl, rfl, ?_⟩
  intro h
  simp only [drawWindow, specWindow, Elt.eltName, pySlice, pyIndex] at h
  simp at h

/-- C2 amended: for a non-error sequence the rendered window is always
content[1:][current_line : current_line + max_lines] - the first element is
excluded unconditionally, not only when it is a leading Title or Error; the
claim's description is accurate exactly when the sequence does start with a
Title (and error sequences get no paged window at all). -/
theorem c2_amended_window (e : Elt) (rest : List Elt) (cur maxL : Int)
    (he : e.eltName ≠ "error") :
    drawWindow (e :: rest) cur maxL = some (pySlice rest cur (cur + maxL)) ∧
    (e.eltName = "title" →
      drawWindow (e :: rest) cur maxL = some (specWindow (e :: rest) cur maxL)) := by
  constructor
  · simp [drawWindow, he]
  · intro ht
    simp [drawWindow, specWindow, he, ht]

/-- Witness for c2_amended_window on the sequence [Title T, Text x]. -/
theorem c2_amended_window_witness :
    drawWindow [Elt.title (some "T"), Elt.text "x"] 0 3 = some [Elt.text "x"] ∧
    drawWindow [Elt.title (some "T"), Elt.text "x"] 0 3 =
      some (specWindow [Elt.title (some "T"), Elt.text "x"] 0 3) := by
  have h := c2_amended_window (Elt.title (some "T")) [Elt.text "x"] 0 3
    (by simp [Elt.eltName])
  exact ⟨by rw [h.1]; rfl, h.2 (by simp [Elt.eltName])⟩

/-- C9 counterexample: the query ./page.htm is classified as a local file
path (leading dot), names an existing regular file, and has the .htm
extension, yet _file_search yields a failure result: the code demands the
exact suffix .html (after lowercasing), so .htm alone is rejected, refuting
the claim's htm-like-extension success case. -/
theorem c9_htm_counterexample :
    searchRoute "./page.htm" false = some (SearchRoute.file "./page.htm") ∧
    (file_search "./page.htm" true true "markup").success = false ∧
    (file_search "./page.html" true true "markup").success = true := by
  refine ⟨by decide, by decide, by decide⟩

/-- C9 amended: a query starting with a tilde, slash or dot, or matching an
existing filesystem path, is routed to _file_search with the query as the
path; _file_search succeeds exactly when the path exists, is a regular file,
and its lowercased name ends with the exact suffix .html (so a bare .htm
extension fails). -/
theorem c9_amended_file_route :
    (∀ (q : String) (queryExists : Bool) (c : Char) (restChars : List Char),
      q.data = c :: restChars →
      (c == '~' || c == '/' || c == '.' || queryExists) = true →
      searchRoute q queryExists = some (SearchRoute.file q)) ∧
    (∀ (path : String) (pathExists isFile : Bool) (contents : String),
      (file_search path pathExists isFile contents).success =
        (pathExists && isFile && pyEndswith (pyLower path) ".html")) := by
  constructor
  · intro q queryExists c restChars hq hc
    unfold searchRoute is_path
    rw [hq]
    simp [hc]
  · intro path pathExists isFile contents
    unfold file_search
    cases pathExists <;> cases isFile <;>
      cases hb : pyEndswith (pyLower path) ".html" <;> simp [hb]

/-- Witness for c9_amended_file_route on the query ./notes.html naming an
existing regular file. -/
theorem c9_amended_file_route_witness :
    searchRoute "./notes.html" false = some (SearchRoute.file "./notes.html") ∧
    (file_search "./notes.html" true true "markup").success =
      (true && true && pyEndswith (pyLower "./notes.html") ".html") :=
  ⟨c9_amended_file_route.1 "./notes.html" false '.' "/notes.html".data rfl (by decide),
   c9_amended_file_route.2 "./notes.html" true true "markup"⟩
